import Mathlib

/-
Verification development for the `project_autoverse` repository.

The repository is a Python application that listens to live audio, converts
speech to text (Vosk), detects spoken scripture citations in the transcript
(`core_logic.py`), looks the verses up in an SQLite store (`data_engine.py`),
and manages the audio capture / recognition pipeline
(`transcription_engine.py`, `vosk_grammar.py`).

This file gives a shallow embedding of the pure/observable parts of that code
in Lean 4 and proves (or refutes) the specification claims about it.
Conventions of the embedding:

* Python strings are Lean `String`s (ASCII suffices for all relevant data;
  the helpers `pyLower`, `pyTitle`, `pyIsSpace`, `pyIsDigit` reproduce the
  CPython behaviour on that fragment).
* The regular expression `(<book1>|<book2>|...)\s+(\d+)\s+(\d+)` used by
  `CoreLogic.parse_and_find_verse` is embedded as an explicit backtracking
  matcher: alternatives are tried in list order at each start position
  (leftmost match wins), `\s+` / `\d+` are maximal runs (the character
  classes are disjoint, so greedy matching with backtracking degenerates to
  maximal munch).
* The SQLite verse table behind `DataEngine.get_verse` is external state; it
  is embedded as an abstract row-lookup function
  `translation → book → chapter → verse → Option text` together with a
  `connected` flag, exactly the data the Python code observes.
* Python `set` iteration order is unspecified; sets are embedded as
  first-occurrence deduplicated lists and only order-independent facts
  (membership, cardinality-free shape facts) are proved about them.
-/

set_option maxRecDepth 100000

namespace Autoverse

/-! ## Python string primitives -/

/-- Python `\s` (ASCII fragment): the six whitespace characters. -/
def pyIsSpace (c : Char) : Bool :=
  c = ' ' || c = '\t' || c = '\n' || c = '\r' || c = '\x0b' || c = '\x0c'

/-- Python `\d` (ASCII fragment): decimal digits. -/
def pyIsDigit (c : Char) : Bool := '0' ≤ c && c ≤ '9'

/-- ASCII letters — the "cased" characters relevant to `str.title`. -/
def pyIsAlpha (c : Char) : Bool := ('a' ≤ c && c ≤ 'z') || ('A' ≤ c && c ≤ 'Z')

/-- Python `str.lower` on one ASCII character. -/
def pyLowerChar (c : Char) : Char :=
  if 'A' ≤ c && c ≤ 'Z' then Char.ofNat (c.toNat + 32) else c

/-- Python `str.lower` (ASCII fragment). -/
def pyLower (s : String) : String := ⟨s.data.map pyLowerChar⟩

/-- Python `str.upper` on one ASCII character. -/
def pyUpperChar (c : Char) : Char :=
  if 'a' ≤ c && c ≤ 'z' then Char.ofNat (c.toNat - 32) else c

/-- Helper for `pyTitle`: the flag records whether the previous character was
cased (a letter); a letter after a non-letter is uppercased, a letter after a
letter is lowercased, other characters pass through. -/
def pyTitleAux : List Char → Bool → List Char
  | [], _ => []
  | c :: cs, prevCased =>
    (if pyIsAlpha c then (if prevCased then pyLowerChar c else pyUpperChar c) else c)
      :: pyTitleAux cs (pyIsAlpha c)

/-- Python `str.title` (ASCII fragment). -/
def pyTitle (s : String) : String := ⟨pyTitleAux s.data false⟩

/-- Helper for `pyDirname`: the portion of the character list up to and
including the last `'/'`, or `none` when there is no slash
(CPython `p[:p.rfind('/') + 1]`). -/
def keepUptoLastSlash : List Char → Option (List Char)
  | [] => none
  | c :: cs =>
    match keepUptoLastSlash cs with
    | some t => some (c :: t)
    | none => if c = '/' then some [c] else none

/-- Python `os.path.dirname` (POSIX): text before the last `'/'`, with
trailing slashes stripped unless the head is all slashes. -/
def pyDirname (p : String) : String :=
  match keepUptoLastSlash p.data with
  | none => ""
  | some head =>
    if head.all (fun c => c = '/') then ⟨head⟩
    else ⟨(head.reverse.dropWhile (fun c => c = '/')).reverse⟩

/-- Python `str.split()` helper: accumulates the current word (reversed). -/
def pySplitAux : List Char → List Char → List String
  | [], cur => if cur.isEmpty then [] else [⟨cur.reverse⟩]
  | c :: cs, cur =>
    if pyIsSpace c then
      if cur.isEmpty then pySplitAux cs [] else ⟨cur.reverse⟩ :: pySplitAux cs []
    else pySplitAux cs (c :: cur)

/-- Python `str.split()` with no arguments: split on whitespace runs,
discarding empty fields. -/
def pySplit (s : String) : List String := pySplitAux s.data []

/-- Python `json.dumps` of a list of (escape-free) strings, with CPython's default
separators: `["a", "b"]`. -/
def jsonDumpsStrList (l : List String) : String :=
  "[" ++ String.intercalate ", " (l.map (fun s => "\"" ++ s ++ "\"")) ++ "]"

/-- Lexicographic strict order on character lists by code point — the order
Python string comparison uses. -/
def charsLt : List Char → List Char → Bool
  | [], [] => false
  | [], _ :: _ => true
  | _ :: _, [] => false
  | a :: as, b :: bs =>
    if a.toNat < b.toNat then true
    else if b.toNat < a.toNat then false
    else charsLt as bs

/-- Python `a < b` on strings (code-point lexicographic). -/
def pyStrLt (a b : String) : Bool := charsLt a.data b.data

/-- Python `a <= b` on strings, as the complement of the strict order. -/
def pyStrLe (a b : String) : Bool := !(pyStrLt b a)

/-- Python dict `.get(k, dflt)` over an association list with unique keys. -/
def dictGetD (m : List (String × String)) (k dflt : String) : String :=
  match m.find? (fun p => p.1 = k) with
  | some p => p.2
  | none => dflt

/-! ## `data_engine.py` — `DataEngine` -/

/-- The literal dictionary built by `DataEngine._create_spoken_word_map`
(source order preserved). -/
def spokenWordMapTable : List (String × String) :=
  [("first corinthians", "1 Corinthians"),
   ("second corinthians", "2 Corinthians"),
   ("one corinthians", "1 Corinthians"),
   ("two corinthians", "2 Corinthians"),
   ("genesis", "Genesis"),
   ("exodus", "Exodus"),
   ("leviticus", "Leviticus"),
   ("numbers", "Numbers"),
   ("deuteronomy", "Deuteronomy"),
   ("joshua", "Joshua"),
   ("judges", "Judges"),
   ("ruth", "Ruth"),
   ("first samuel", "1 Samuel"),
   ("second samuel", "2 Samuel"),
   ("first kings", "1 Kings"),
   ("second kings", "2 Kings"),
   ("first chronicles", "1 Chronicles"),
   ("second chronicles", "2 Chronicles"),
   ("ezra", "Ezra"),
   ("nehemiah", "Nehemiah"),
   ("esther", "Esther"),
   ("job", "Job"),
   ("psalms", "Psalm"),
   ("proverbs", "Proverbs"),
   ("ecclesiastes", "Ecclesiastes"),
   ("song of solomon", "Song of Solomon"),
   ("isaiah", "Isaiah"),
   ("jeremiah", "Jeremiah"),
   ("lamentations", "Lamentations"),
   ("ezekiel", "Ezekiel"),
   ("daniel", "Daniel"),
   ("hosea", "Hosea"),
   ("joel", "Joel"),
   ("amos", "Amos"),
   ("obadiah", "Obadiah"),
   ("jonah", "Jonah"),
   ("micah", "Micah"),
   ("nahum", "Nahum"),
   ("habakkuk", "Habakkuk"),
   ("zephaniah", "Zephaniah"),
   ("haggai", "Haggai"),
   ("zechariah", "Zechariah"),
   ("malachi", "Malachi"),
   ("matthew", "Matthew"),
   ("mark", "Mark"),
   ("luke", "Luke"),
   ("john", "John"),
   ("acts", "Acts"),
   ("romans", "Romans"),
   ("first timothy", "1 Timothy"),
   ("second timothy", "2 Timothy"),
   ("titus", "Titus"),
   ("philemon", "Philemon"),
   ("hebrews", "Hebrews"),
   ("james", "James"),
   ("first peter", "1 Peter"),
   ("second peter", "2 Peter"),
   ("first john", "1 John"),
   ("second john", "2 John"),
   ("third john", "3 John"),
   ("jude", "Jude"),
   ("revelation", "Revelation")]

/-- Embedding of a `DataEngine` instance: `connected` is whether
`self.connection` is set, `rows` abstracts the SQLite `scriptures` table as a
lookup `translation → book → chapter → verse_num → Option text` (keys as the
code passes them), and `spoken_word_map` is the dictionary built in
`__init__`. -/
structure DataEngine where
  connected : Bool
  rows : String → String → String → String → Option String
  spoken_word_map : List (String × String)

/-- Embedding of `DataEngine.__init__`: stores the connection state and the row store and
runs `_create_spoken_word_map`. -/
def DataEngine.make (connected : Bool)
    (rows : String → String → String → String → Option String) : DataEngine :=
  ⟨connected, rows, spokenWordMapTable⟩

/-- Embedding of `DataEngine.get_verse`: without a connection the result is `None`;
otherwise the book name is normalized through `spoken_word_map`
(`self.spoken_word_map.get(book.lower(), book)`) and the row store is
queried. -/
def DataEngine.get_verse (de : DataEngine)
    (translation book chapter verse_num : String) : Option String :=
  if de.connected then
    de.rows translation (dictGetD de.spoken_word_map (pyLower book) book) chapter verse_num
  else none

/-! ## `core_logic.py` — `CoreLogic` -/

/-- The nine extra spellings appended in `CoreLogic._build_book_pattern`. -/
def extraBooks : List String :=
  ["1 corinthians", "2 corinthians", "1 timothy", "2 timothy",
   "1 peter", "2 peter", "1 john", "2 john", "3 john"]

/-- The comparison used by `sorted(books, key=len, reverse=True)`:
`a` may precede `b` iff `b` is no longer than `a`. -/
def lenGe (a b : String) : Prop := b.length ≤ a.length

instance : DecidableRel lenGe := fun a b =>
  inferInstanceAs (Decidable (b.length ≤ a.length))

instance : IsTotal String lenGe :=
  ⟨fun a b => (Nat.le_total b.length a.length).imp id id⟩

instance : IsTrans String lenGe :=
  ⟨fun _ _ _ h1 h2 => Nat.le_trans h2 h1⟩

/-- Embedding of `CoreLogic._build_book_pattern`: the keys of `spoken_word_map` (in dict
order) plus the extra spellings, stably sorted by decreasing length — the
alternation order of the regex `(b1|b2|...)`. -/
def build_book_pattern (de : DataEngine) : List String :=
  List.insertionSort lenGe (de.spoken_word_map.map Prod.fst ++ extraBooks)

/-- Embedding of a `CoreLogic` instance: the data engine reference and the
book pattern built once in `__init__`. -/
structure CoreLogic where
  data_engine : DataEngine
  book_pattern : List String

/-- Embedding of `CoreLogic.__init__`. -/
def CoreLogic.make (de : DataEngine) : CoreLogic :=
  ⟨de, build_book_pattern de⟩

/-- A maximal non-empty run of characters satisfying `p`, with the rest of
the input; `none` when the first character does not satisfy `p`. This is
what the greedy `\s+` / `(\d+)` atoms of the pattern
`(books)\s+(\d+)\s+(\d+)` reduce to, since the two character classes are
disjoint and nothing else follows. -/
def takeRun (p : Char → Bool) (cs : List Char) : Option (List Char × List Char) :=
  match cs.takeWhile p with
  | [] => none
  | t => some (t, cs.drop t.length)

/-- The part of the pattern after a book alternative:
`\s+(\d+)\s+(\d+)`, returning the two captured digit strings. -/
def matchTail (cs : List Char) : Option (String × String) :=
  (takeRun pyIsSpace cs).bind fun s1 =>
  (takeRun pyIsDigit s1.2).bind fun p1 =>
  (takeRun pyIsSpace p1.2).bind fun s2 =>
  (takeRun pyIsDigit s2.2).map fun p2 => (⟨p1.1⟩, ⟨p2.1⟩)

/-- Try each book alternative in alternation order at the current position;
on a literal prefix match the tail pattern must also match, otherwise the
next alternative is tried (regex alternation with backtracking). Returns
the captured `(book, chapter, verse)`. -/
def tryBooks : List String → List Char → Option (String × String × String)
  | [], _ => none
  | b :: rest, cs =>
    match (if b.data.isPrefixOf cs then
            (matchTail (cs.drop b.data.length)).map (fun p => (b, p.1, p.2))
           else none) with
    | some r => some r
    | none => tryBooks rest cs

/-- Embedding of `re.search`: try the whole pattern at each start position, leftmost
first. -/
def searchFrom (books : List String) : List Char → Option (String × String × String)
  | [] => tryBooks books []
  | cs@(_ :: rest) =>
    match tryBooks books cs with
    | some r => some r
    | none => searchFrom books rest

/-- The result dictionary of `CoreLogic.parse_and_find_verse` (its five
fixed keys). Note `chapter` and `verse_num` are strings — the regex captures
are never converted to integers. -/
structure VerseData where
  translation : String
  book : String
  chapter : String
  verse_num : String
  text : String
deriving DecidableEq, Repr

/-- Embedding of `CoreLogic.parse_and_find_verse`: lowercase the input, search for
`(books)\s+(\d+)\s+(\d+)`, and if the data engine has text for the citation
return the result dictionary, else `None`. -/
def parse_and_find_verse (cl : CoreLogic) (text : String)
    (translation : String := "KJV") : Option VerseData :=
  let t := pyLower text
  match searchFrom cl.book_pattern t.data with
  | none => none
  | some (book, chapter, verse) =>
    match cl.data_engine.get_verse translation book chapter verse with
    | some verse_text =>
      some ⟨translation,
            pyTitle (dictGetD cl.data_engine.spoken_word_map book book),
            chapter, verse, verse_text⟩
    | none => none

/-- State-passing form of `parse_and_find_verse`: the method body only reads
`self.book_pattern`, `self.data_engine.spoken_word_map` and the row store —
no Python statement in it assigns to any attribute — so the translated
transition returns the `CoreLogic` value unchanged. -/
def parse_run (cl : CoreLogic) (text translation : String) :
    Option VerseData × CoreLogic :=
  (parse_and_find_verse cl text translation, cl)

/-- Embedding of `CoreLogic.get_ui_text`: empty string for a falsy argument, otherwise the
two-line display format. -/
def get_ui_text (verse_data : Option VerseData) : String :=
  match verse_data with
  | none => ""
  | some v =>
    "\"..." ++ v.text ++ "\"\n\n" ++ v.book ++ " " ++ v.chapter ++ ":" ++
      v.verse_num ++ " (" ++ v.translation ++ ")"

/-! ## `transcription_engine.py` — `VoskGrammarGenerator` -/

namespace VoskGrammarGenerator

/-- The class attribute `BIBLE_BOOKS` (66 lowercase names). -/
def BIBLE_BOOKS : List String :=
  ["genesis", "exodus", "leviticus", "numbers", "deuteronomy", "joshua",
   "judges", "ruth", "first samuel", "second samuel", "first kings",
   "second kings", "first chronicles", "second chronicles", "ezra",
   "nehemiah", "esther", "job", "psalms", "proverbs", "ecclesiastes",
   "song of solomon", "isaiah", "jeremiah", "lamentations", "ezekiel",
   "daniel", "hosea", "joel", "amos", "obadiah", "jonah", "micah",
   "nahum", "habakkuk", "zephaniah", "haggai", "zechariah", "malachi",
   "matthew", "mark", "luke", "john", "acts", "romans",
   "first corinthians", "second corinthians", "galatians", "ephesians",
   "philippians", "colossians", "first thessalonians", "second thessalonians",
   "first timothy", "second timothy", "titus", "philemon", "hebrews",
   "james", "first peter", "second peter", "first john", "second john",
   "third john", "jude", "revelation"]

/-- The class attribute `NUMBERS`: `str(i)` for `0..100` plus spelled-out
words and the three ordinals. -/
def NUMBERS : List String :=
  (List.range 101).map (fun i => toString i) ++
  ["zero", "one", "two", "three", "four", "five", "six", "seven", "eight",
   "nine", "ten", "eleven", "twelve", "thirteen", "fourteen", "fifteen",
   "twenty", "thirty", "forty", "fifty", "hundred",
   "first", "second", "third"]

/-- The class attribute `KEYWORDS`. -/
def KEYWORDS : List String :=
  ["chapter", "verse", "to", "through", "and", "in", "let us read",
   "turn to", "referencing", "elder", "deacon", "pastor", "reverend",
   "trinity", "baptism", "eucharist", "doxology", "amen", "hallelujah"]

/-- Embedding of `VoskGrammarGenerator.generate_grammar_list`: a Python `set` built from
every whitespace-split word of every book name, all `NUMBERS` and all
`KEYWORDS`, then `list(...)`. The set's iteration order is unspecified in
Python (hash-dependent); it is embedded in first-occurrence order, and only
order-independent facts are proved about it. Note the code does NOT add the
`"[unk]"` token (despite the comment above its `return`). -/
def generate_grammar_list : List String :=
  (BIBLE_BOOKS.flatMap pySplit ++ NUMBERS ++ KEYWORDS).dedup

/-- Embedding of `VoskGrammarGenerator.generate_vosk_json`: `json.dumps(grammar_list)` —
a bare JSON array of the words, not an object. -/
def generate_vosk_json : String := jsonDumpsStrList generate_grammar_list

end VoskGrammarGenerator

/-! ## `vosk_grammar.py` (module-level, not called by the engine) -/

namespace VoskGrammarFile

/-- The list `BIBLE_BOOKS` of `vosk_grammar.py` (title-cased phrases). -/
def BIBLE_BOOKS : List String :=
  ["Genesis", "Exodus", "Leviticus", "Numbers", "Deuteronomy", "Joshua", "Judges", "Ruth",
   "First Samuel", "Second Samuel", "First Kings", "Second Kings", "First Chronicles",
   "Second Chronicles", "Ezra", "Nehemiah", "Esther", "Job", "Psalms", "Proverbs",
   "Ecclesiastes", "Song of Solomon", "Isaiah", "Jeremiah", "Lamentations", "Ezekiel",
   "Daniel", "Hosea", "Joel", "Amos", "Obadiah", "Jonah", "Micah", "Nahum", "Habakkuk",
   "Zephaniah", "Haggai", "Zechariah", "Malachi", "Matthew", "Mark", "Luke", "John",
   "Acts", "Romans", "First Corinthians", "Second Corinthians", "Galatians", "Ephesians",
   "Philippians", "Colossians", "First Thessalonians", "Second Thessalonians",
   "First Timothy", "Second Timothy", "Titus", "Philemon", "Hebrews", "James",
   "First Peter", "Second Peter", "First John", "Second John", "Third John", "Jude",
   "Revelation"]

/-- The list `ORDINAL_NUMBERS` of `vosk_grammar.py`. -/
def ORDINAL_NUMBERS : List String :=
  ["one", "two", "three", "four", "five", "six", "seven", "eight", "nine", "ten",
   "eleven", "twelve", "thirteen", "fourteen", "fifteen", "sixteen", "seventeen",
   "eighteen", "nineteen", "twenty", "first", "second", "third"]

/-- The list `CITATION_CONNECTORS` of `vosk_grammar.py` (the apostrophe in the fifth
entry is written with a hex escape). -/
def CITATION_CONNECTORS : List String :=
  ["chapter", "verse", "to", "through", "let\x27s read", "turn to", "referencing"]

/-- The list `CHURCH_TERMS` of `vosk_grammar.py`. -/
def CHURCH_TERMS : List String :=
  ["Apostle", "Elder", "Deacon", "Doxology", "Eucharist", "Trinity", "Baptism"]

/-- The `unique_vocabulary` local of `generate_vosk_grammar`:
`sorted(list(set([w.lower() for w in full_vocabulary])))`. Sorting makes the
set's iteration order irrelevant here. -/
def unique_vocabulary : List String :=
  List.insertionSort (fun a b : String => pyStrLe a b = true)
    (((BIBLE_BOOKS ++ ORDINAL_NUMBERS ++ CITATION_CONNECTORS ++ CHURCH_TERMS).map
        pyLower).dedup)

/-- Embedding of `vosk_grammar.generate_vosk_grammar`:
`json.dumps({"text": "[unk]", "words": unique_vocabulary})`. -/
def generate_vosk_grammar : String :=
  "\x7b\"text\": \"[unk]\", \"words\": " ++ jsonDumpsStrList unique_vocabulary ++ "\x7d"

end VoskGrammarFile

/-- A Bool checker for strict ascending (codepoint-lexicographic) order,
which for strings coincides with Python `sorted` output on duplicate-free
input. -/
def strictSortedLt : List String → Bool
  | [] => true
  | [_] => true
  | a :: b :: t => pyStrLt a b && strictSortedLt (b :: t)

/-! ## `transcription_engine.py` — `TranscriptionEngine` -/

/-- One audio block: a sequence of signed 16-bit mono samples. -/
abbrev AudioBlock := List Int

/-- The mutable attributes of a `TranscriptionEngine` that the lifecycle,
callback and recording paths observe. `audio_queue` embeds the
`queue.Queue()` created in `__init__` as a FIFO list (`put` appends at the
tail, `get` takes from the head); the Python queue is constructed with NO
`maxsize` argument, i.e. it is unbounded. -/
structure EngineState where
  model_loaded : Bool
  is_listening : Bool
  is_recording : Bool
  recorded_frames : List AudioBlock
  audio_queue : List AudioBlock
deriving DecidableEq, Repr

/-- Embedding of `TranscriptionEngine._audio_callback`: conditionally append a copy of the
block to `recorded_frames`, then unconditionally `put` the block's bytes on
`audio_queue`. (The byte serialization `bytes(indata)` is modeled by the
block itself.) There is no capacity test, no drop branch and no dropped-block
counter in the source. -/
def audio_callback (st : EngineState) (indata : AudioBlock) : EngineState :=
  let st1 :=
    if st.is_recording then
      {st with recorded_frames := st.recorded_frames ++ [indata]}
    else st
  {st1 with audio_queue := st1.audio_queue ++ [indata]}

/-- The observable outcome of a `start_listening` call up to entering the
blocking recognition loop. The `raisedIllegalState` constructor represents
the behaviour the specification predicts (an `IllegalStateError` exception);
the translated code never produces it. -/
inductive StartOutcome where
  | rejected (st : EngineState) (msg : String)
  | failedDevice (st : EngineState)
  | entered (st : EngineState)
  | raisedIllegalState (stateName : String)
deriving DecidableEq, Repr

/-- Whether a `start_listening` outcome is a raised exception. -/
def StartOutcome.isRaised : StartOutcome → Bool
  | .raisedIllegalState _ => true
  | _ => false

/-- Embedding of `TranscriptionEngine.start_listening` up to the recognition loop:
guard on `model_loaded`, guard on `is_listening`, then (inside `try`) query
the device — `device_ok` abstracts whether `sd.query_devices` and stream
creation succeed — set `is_recording`, clear `recorded_frames` when
recording, and set `is_listening := true`. The `except` path reports a
status error and leaves `is_listening` false. -/
def start_listening (st : EngineState) (device_ok record_audio : Bool) :
    StartOutcome :=
  if !st.model_loaded then
    .rejected st "ERROR: Vosk model is not loaded. Cannot start listening."
  else if st.is_listening then
    .rejected st "Already listening."
  else if device_ok then
    .entered {st with is_listening := true, is_recording := record_audio,
                      recorded_frames :=
                        if record_audio then [] else st.recorded_frames}
  else
    .failedDevice st

/-- The observable outcome of a `stop_listening` call; `raisedIllegalState`
again represents the exception the specification predicts and is never
produced by the translated code. -/
inductive StopOutcome where
  | returned (st : EngineState) (msgs : List String)
  | raisedIllegalState (stateName : String)
deriving DecidableEq, Repr

/-- Whether a `stop_listening` outcome is a raised exception. -/
def StopOutcome.isRaised : StopOutcome → Bool
  | .raisedIllegalState _ => true
  | _ => false

/-- Embedding of `TranscriptionEngine.stop_listening`: if not listening, report
"Not currently listening." and return; otherwise clear `is_listening`,
stop/close the stream, clear `is_recording` and report "Stopped
listening.". -/
def stop_listening (st : EngineState) : StopOutcome :=
  if !st.is_listening then .returned st ["Not currently listening."]
  else
    .returned {st with is_listening := false, is_recording := false}
      ["Stopped listening."]

/-- Python-level exceptions relevant to the export claims. -/
inductive PyError where
  | encodingError
  | ioError
deriving DecidableEq, Repr

/-- The observable outcome of `save_audio_stream`. `noAudioStatus` is the
early return on an empty buffer; `saved` records the directory passed to
`os.makedirs`, the concatenated samples, the output path and the status
message; `errorStatus` is the `except` branch (exception caught, error
reported via the status callback); `raised e` represents an exception
propagating to the caller — the translated code never produces it. -/
inductive SaveOutcome where
  | noAudioStatus (msg : String)
  | saved (createdDir : String) (audio : AudioBlock) (path : String) (msg : String)
  | errorStatus
  | raised (e : PyError)
deriving DecidableEq, Repr

/-- Whether a `save_audio_stream` outcome is a raised exception. -/
def SaveOutcome.isRaised : SaveOutcome → Bool
  | .raised _ => true
  | _ => false

/-- Embedding of `TranscriptionEngine.save_audio_stream`: empty buffer → status message
"No audio recorded to save." and return (no exception, no file); otherwise
`os.makedirs(os.path.dirname(output_path), exist_ok=True)` — which raises
(and is caught, becoming `errorStatus`) when the dirname is empty, i.e. when
the path has no directory component — then the frames are concatenated,
encoded and exported to `output_path`. -/
def save_audio_stream (recorded_frames : List AudioBlock) (output_path : String) :
    SaveOutcome :=
  if recorded_frames.isEmpty then .noAudioStatus "No audio recorded to save."
  else if pyDirname output_path = "" then .errorStatus
  else
    .saved (pyDirname output_path) recorded_frames.flatten output_path
      ("Audio saved to " ++ output_path)

/-- One entry of `sounddevice.query_devices()`. -/
structure SdDevice where
  name : String
  max_input_channels : Int
deriving DecidableEq, Repr

/-- One entry of `sounddevice.query_hostapis()`. -/
structure SdHostApi where
  name : String
  default_input_device : Int
deriving DecidableEq, Repr

/-- The platform audio environment observed by `list_audio_devices`:
the device table, the host-api table and the value of
`sd.default.hostapi` that api names are compared against. -/
structure SdEnv where
  devices : List SdDevice
  hostapis : List SdHostApi
  defaultHostapi : String
deriving Repr

/-- Embedding of `TranscriptionEngine.list_audio_devices`: the whole body is inside
`try`; a raising platform query (the `Except.error` case) yields `({}, -1)`.
On success the default host api is looked up by name, its
`default_input_device` taken (else `-1`), and the devices are enumerated and
filtered to those with `max_input_channels > 0`. -/
def list_audio_devices (env : Except String SdEnv) :
    List (Nat × String) × Int :=
  match env with
  | .error _ => ([], -1)
  | .ok env =>
    let default_device_index :=
      match env.hostapis.find? (fun api => api.name = env.defaultHostapi) with
      | some api => api.default_input_device
      | none => -1
    ((env.devices.enum.filter (fun p => p.2.max_input_channels > 0)).map
        (fun p => (p.1, p.2.name)),
     default_device_index)

/-! ## Concrete fixtures used in the theorems -/

/-- A row store with no verses at all. -/
def emptyRows : String → String → String → String → Option String :=
  fun _ _ _ _ => none

/-- A row store holding exactly KJV John 3:16. -/
def johnRows : String → String → String → String → Option String :=
  fun tr b c v =>
    if tr = "KJV" && b = "John" && c = "3" && v = "16" then
      some "For God so loved the world" else none

/-- A connected data engine over the empty store. -/
def emptyDataEngine : DataEngine := DataEngine.make true emptyRows

/-- A connected data engine over the KJV John 3:16 store. -/
def johnDataEngine : DataEngine := DataEngine.make true johnRows

/-- An idle engine: model loaded, not listening, not recording. -/
def idleEngine : EngineState := ⟨true, false, false, [], []⟩

/-- An engine that is currently listening. -/
def listeningEngine : EngineState := ⟨true, true, false, [], []⟩

/-- A demo platform audio environment: one input device, one output-only
device, one host api which is the default. -/
def demoSdEnv : SdEnv :=
  ⟨[⟨"Microphone", 2⟩, ⟨"Speakers", 0⟩], [⟨"ALSA", 0⟩], "ALSA"⟩

/-! ## Helper lemmas -/

/-- The callback always appends the incoming block at the tail of the
queue, whatever the recording flag says. -/
lemma audio_callback_queue (st : EngineState) (b : AudioBlock) :
    (audio_callback st b).audio_queue = st.audio_queue ++ [b] := by
  unfold audio_callback
  by_cases h : st.is_recording <;> simp [h]

/-- Feeding a sequence of blocks grows the queue by exactly that many
entries: nothing is ever evicted. -/
lemma foldl_audio_callback_queue_length (blocks : List AudioBlock) :
    ∀ st : EngineState,
      ((blocks.foldl audio_callback st).audio_queue).length =
        st.audio_queue.length + blocks.length := by
  induction blocks with
  | nil => intro st; simp
  | cons b bs ih =>
    intro st
    rw [List.foldl_cons, ih, audio_callback_queue]
    simp
    omega

/-- A successful `takeRun` returns a non-empty run of characters satisfying
the class. -/
lemma takeRun_spec {p : Char → Bool} {cs : List Char} {q : List Char × List Char}
    (h : takeRun p cs = some q) : q.1 ≠ [] ∧ q.1.all p = true := by
  unfold takeRun at h
  split at h
  · exact absurd h (by simp)
  · rename_i heq
    rw [Option.some.injEq] at h
    subst h
    exact ⟨heq, List.all_takeWhile⟩

/-- The two captures of the tail pattern are non-empty digit strings. -/
lemma matchTail_spec {cs : List Char} {c v : String}
    (h : matchTail cs = some (c, v)) :
    c.data ≠ [] ∧ c.data.all pyIsDigit = true ∧
    v.data ≠ [] ∧ v.data.all pyIsDigit = true := by
  unfold matchTail at h
  rw [Option.bind_eq_some] at h
  obtain ⟨s1, h1, h⟩ := h
  rw [Option.bind_eq_some] at h
  obtain ⟨p1, h2, h⟩ := h
  rw [Option.bind_eq_some] at h
  obtain ⟨s2, h3, h⟩ := h
  rw [Option.map_eq_some'] at h
  obtain ⟨p2, h4, h5⟩ := h
  rw [Prod.mk.injEq] at h5
  obtain ⟨hc, hv⟩ := h5
  subst hc; subst hv
  obtain ⟨a1, a2⟩ := takeRun_spec h2
  obtain ⟨b1, b2⟩ := takeRun_spec h4
  exact ⟨a1, a2, b1, b2⟩

/-- A successful alternation step yields a book from the list whose literal
text is a prefix of the input there, with the tail pattern matching after
it. -/
lemma tryBooks_some {books : List String} {cs : List Char} {b c v : String}
    (h : tryBooks books cs = some (b, c, v)) :
    b ∈ books ∧ b.data.isPrefixOf cs = true ∧
    matchTail (cs.drop b.data.length) = some (c, v) := by
  induction books with
  | nil => simp [tryBooks] at h
  | cons a rest ih =>
    unfold tryBooks at h
    split at h
    · rename_i r heq
      have hr : r = (b, c, v) := Option.some.inj h
      subst hr
      split at heq
      · rename_i hpre
        rw [Option.map_eq_some'] at heq
        obtain ⟨p, hp, hpe⟩ := heq
        rw [Prod.mk.injEq] at hpe
        obtain ⟨hb, hcv⟩ := hpe
        rw [Prod.mk.injEq] at hcv
        obtain ⟨hc, hv⟩ := hcv
        subst hb; subst hc; subst hv
        refine ⟨List.mem_cons_self a rest, hpre, ?_⟩
        rw [Prod.mk.eta]
        exact hp
      · exact absurd heq (by simp)
    · obtain ⟨hm, hpre, ht⟩ := ih h
      exact ⟨List.mem_cons_of_mem a hm, hpre, ht⟩

/-- Alternation respects the list order: among the alternatives that are a
prefix of the input here and whose tail pattern matches, the first listed
one is returned; with a length-sorted list that is a longest one. -/
lemma tryBooks_longest {books : List String} (hsort : books.Pairwise lenGe) :
    ∀ {cs : List Char} {b c v : String}, tryBooks books cs = some (b, c, v) →
      ∀ b' ∈ books, b'.data.isPrefixOf cs = true →
        (matchTail (cs.drop b'.data.length)).isSome = true →
        b'.length ≤ b.length := by
  induction books with
  | nil => intro cs b c v h; simp [tryBooks] at h
  | cons a rest ih =>
    rw [List.pairwise_cons] at hsort
    obtain ⟨ha, hrest⟩ := hsort
    intro cs b c v h b' hb' hpre hmt
    unfold tryBooks at h
    split at h
    · rename_i r heq
      have hr : r = (b, c, v) := Option.some.inj h
      subst hr
      split at heq
      · rw [Option.map_eq_some'] at heq
        obtain ⟨p, -, hpe⟩ := heq
        have hb : a = b := congrArg Prod.fst hpe
        subst hb
        rcases List.mem_cons.mp hb' with h1 | h1
        · subst h1; exact Nat.le_refl _
        · exact ha b' h1
      · exact absurd heq (by simp)
    · rename_i heq
      rcases List.mem_cons.mp hb' with h1 | h1
      · subst h1
        rw [if_pos hpre] at heq
        rw [Option.map_eq_none'] at heq
        rw [heq] at hmt
        simp at hmt
      · exact ih hrest h b' h1 hpre hmt

/-- A successful search means the whole pattern matches at some suffix of
the input (the scan tries positions left to right). -/
lemma searchFrom_some {books : List String} :
    ∀ {cs : List Char} {r : String × String × String},
      searchFrom books cs = some r → ∃ t, t <:+ cs ∧ tryBooks books t = some r := by
  intro cs
  induction cs with
  | nil => intro r h; exact ⟨[], List.suffix_refl [], h⟩
  | cons a rest ih =>
    intro r h
    unfold searchFrom at h
    split at h
    · rename_i heq
      rw [h] at heq
      exact ⟨a :: rest, List.suffix_refl _, heq⟩
    · obtain ⟨t, hsuf, ht⟩ := ih h
      exact ⟨t, hsuf.trans (List.suffix_cons a rest), ht⟩

/-! ## Claim C1 -/

/-- C1 (counterexample): the claim says that for EVERY transcript containing
a recognizable `<book> <chapter> <verse>` substring, `parse_and_find_verse`
returns a Citation with those numbers — in particular for
"and now a reading from john 3 16 let us begin". On the code this is false:
the function returns `None` whenever the verse store has no text for the
matched citation, here witnessed by a connected engine over an empty store,
for exactly the transcript named in the claim. -/
theorem C1_counterexample :
    parse_and_find_verse (CoreLogic.make emptyDataEngine)
      "and now a reading from john 3 16 let us begin" "KJV" = none := by
  decide

/-- C1 (amended): whenever the leftmost match of the citation pattern in the
lowercased transcript is `(b, c, v)` AND the verse store returns text for
that citation under the requested translation, `parse_and_find_verse`
returns the dictionary with that translation, the title-cased canonical book
name, the matched chapter and verse digit STRINGS, and the verse text. -/
theorem C1_amended (de : DataEngine) (text translation b c v t : String)
    (hs : searchFrom (build_book_pattern de) (pyLower text).data = some (b, c, v))
    (hv : de.get_verse translation b c v = some t) :
    parse_and_find_verse (CoreLogic.make de) text translation =
      some ⟨translation, pyTitle (dictGetD de.spoken_word_map b b), c, v, t⟩ := by
  simp only [parse_and_find_verse, CoreLogic.make, hs, hv]

/-- C1 (witness): with a store containing KJV John 3:16, the concrete
transcript of the claim parses to the citation with book "John",
chapter "3" and verse "16" (as strings). -/
theorem C1_amended_witness :
    parse_and_find_verse (CoreLogic.make johnDataEngine)
      "and now a reading from john 3 16 let us begin" "KJV" =
      some ⟨"KJV", "John", "3", "16", "For God so loved the world"⟩ :=
  C1_amended johnDataEngine "and now a reading from john 3 16 let us begin"
    "KJV" "john" "3" "16" "For God so loved the world" (by decide) (by decide)

/-! ## Claim C2 -/

/-- C2 (counterexample): the claim says the audio queue between the capture
callback and the recognizer loop has a fixed bounded capacity (with
drop-oldest overflow and a dropped-block counter). On the code this is
false: `__init__` creates `queue.Queue()` with no `maxsize` and
`_audio_callback` just `put`s, so no capacity bound exists — for any
proposed capacity, feeding that many blocks plus one exceeds it. -/
theorem C2_counterexample :
    ¬ ∃ cap : Nat, ∀ blocks : List AudioBlock,
        ((blocks.foldl audio_callback idleEngine).audio_queue).length ≤ cap := by
  rintro ⟨cap, hcap⟩
  have h := hcap (List.replicate (cap + 1) [])
  rw [foldl_audio_callback_queue_length] at h
  simp [idleEngine] at h

/-- C2 (amended): the audio queue is unbounded: a push from the capture
callback never blocks and never drops anything — it always appends the new
block at the tail, retaining every previously queued block in FIFO order,
and feeding n blocks grows the queue by exactly n. There is no
dropped-block counter in the code (nothing is ever dropped). -/
theorem C2_amended :
    (∀ (st : EngineState) (b : AudioBlock),
      (audio_callback st b).audio_queue = st.audio_queue ++ [b]) ∧
    (∀ (blocks : List AudioBlock) (st : EngineState),
      ((blocks.foldl audio_callback st).audio_queue).length =
        st.audio_queue.length + blocks.length) :=
  ⟨audio_callback_queue, foldl_audio_callback_queue_length⟩

/-! ## Claim C3 -/

/-- C3 (counterexample): the claim says exporting an empty recording buffer
fails with an EncodingError. On the code this is false: `save_audio_stream`
with empty `recorded_frames` merely reports "No audio recorded to save."
through the status callback and returns — no exception is raised (and no
file is written, which the outcome constructor records). -/
theorem C3_counterexample :
    save_audio_stream [] "recordings/session.mp3" =
      .noAudioStatus "No audio recorded to save." ∧
    (save_audio_stream [] "recordings/session.mp3").isRaised = false := by
  constructor <;> rfl

/-- C3 (amended): exporting an empty buffer reports "No audio recorded to
save." via the status callback (no exception, no file); for a non-empty
buffer and an output path with a non-empty directory component, the export
creates the missing parent directories (`os.makedirs` on the dirname) and
writes the concatenation of the recorded blocks, encoded, to the given
path. (For a bare filename, `os.makedirs('')` raises and the caught
exception is reported as an error status instead.) -/
theorem C3_amended :
    (∀ path, save_audio_stream [] path =
      .noAudioStatus "No audio recorded to save.") ∧
    (∀ (frames : List AudioBlock) (path : String), frames ≠ [] →
      pyDirname path ≠ "" →
      save_audio_stream frames path =
        .saved (pyDirname path) frames.flatten path
          ("Audio saved to " ++ path)) := by
  constructor
  · intro path
    rfl
  · intro frames path h1 h2
    have h1b : frames.isEmpty = false := by
      cases frames with
      | nil => exact absurd rfl h1
      | cons a l => rfl
    simp [save_audio_stream, h1b, h2]

/-- C3 (witness): a one-block recording exported to "recordings/session.mp3"
creates the directory "recordings" and writes the concatenated samples. -/
theorem C3_amended_witness :
    save_audio_stream [[1, 2, 3]] "recordings/session.mp3" =
      .saved "recordings" [1, 2, 3] "recordings/session.mp3"
        "Audio saved to recordings/session.mp3" :=
  C3_amended.2 [[1, 2, 3]] "recordings/session.mp3" (by decide) (by decide)

/-! ## Claim C4 -/

/-- C4 (counterexample): the claim says `stop` while not Listening (and a
second `start` while Listening) fails with an IllegalStateError. On the
code this is false: `stop_listening` from idle returns normally after
reporting "Not currently listening." via the status callback (state
unchanged), and `start_listening` while listening returns normally after
reporting "Already listening." — no exception type exists in the module at
all. -/
theorem C4_counterexample :
    stop_listening idleEngine = .returned idleEngine ["Not currently listening."] ∧
    (stop_listening idleEngine).isRaised = false ∧
    start_listening listeningEngine true false =
      .rejected listeningEngine "Already listening." ∧
    (start_listening listeningEngine true false).isRaised = false := by
  refine ⟨rfl, rfl, rfl, rfl⟩

/-- C4 (amended): calling start while already listening, or stop while not
listening, is rejected by an early return that reports a status message
("Already listening." / "Not currently listening.") naming the situation;
no exception is raised and the session state is left unchanged. -/
theorem C4_amended :
    (∀ (st : EngineState) (d r : Bool), st.model_loaded = true →
      st.is_listening = true →
      start_listening st d r = .rejected st "Already listening.") ∧
    (∀ st : EngineState, st.is_listening = false →
      stop_listening st = .returned st ["Not currently listening."]) := by
  constructor
  · intro st d r h1 h2
    simp [start_listening, h1, h2]
  · intro st h
    simp [stop_listening, h]

/-- C4 (witness): the guards fire on the concrete listening/idle states. -/
theorem C4_amended_witness :
    start_listening listeningEngine false true =
      .rejected listeningEngine "Already listening." ∧
    stop_listening idleEngine = .returned idleEngine ["Not currently listening."] :=
  ⟨C4_amended.1 listeningEngine false true (by decide) (by decide),
   C4_amended.2 idleEngine (by decide)⟩

/-! ## Claim C5 -/

/-- C5 (counterexample): the claim says the vocabulary payload used to bias
the recognizer is the JSON object `{ text: "[unk]", words: [...] }` with a
sorted word list. On the code this is false: `start_listening` biases the
recognizer with `VoskGrammarGenerator.generate_vosk_json()`, which is
`json.dumps` of a bare list — the payload string starts with `'['`, not
`'{'` (this holds for every set-iteration order), and the `"[unk]"` marker
is not an element of the generated list at all. -/
theorem C5_counterexample :
    (VoskGrammarGenerator.generate_vosk_json).data.head? = some '[' ∧
    "[unk]" ∉ VoskGrammarGenerator.generate_grammar_list := by
  constructor
  · rfl
  · decide

/-- C5 (amended): the payload actually applied to the recognizer is
`json.dumps` of the deduplicated union of the whitespace-split book words,
the numbers and the keywords — a bare JSON array in unspecified set order,
containing every whitespace-split word of every canonical book name but no
`[unk]` entry. The `{ text: "[unk]", words: [...] }` object with a sorted,
deduplicated, lowercased word list is produced by the separate — and never
called — `vosk_grammar.generate_vosk_grammar`, whose `words` are the full
lowercased book PHRASES, not their split words. Both builders are
deterministic given a fixed set enumeration. -/
theorem C5_amended :
    (VoskGrammarGenerator.BIBLE_BOOKS.all (fun b => (pySplit b).all
        (fun w => VoskGrammarGenerator.generate_grammar_list.contains w)) = true) ∧
    (VoskGrammarFile.generate_vosk_grammar).data.head? = some '\x7b' ∧
    strictSortedLt VoskGrammarFile.unique_vocabulary = true ∧
    (VoskGrammarFile.unique_vocabulary.all (fun w => pyLower w = w) = true) ∧
    "first samuel" ∈ VoskGrammarFile.unique_vocabulary ∧
    "samuel" ∉ VoskGrammarFile.unique_vocabulary ∧
    "[unk]" ∉ VoskGrammarFile.unique_vocabulary := by
  refine ⟨by decide, rfl, by decide, by decide, by decide, by decide, by decide⟩

/-! ## Claim C6 -/

/-- C6 (confirmed): the book alternation pattern built by
`_build_book_pattern` is ordered longest-first (each entry is at least as
long as every later entry), and consequently, when several known book
phrases are prefixes of the text at the same position with the rest of the
citation pattern matching after them, the alternation returns a longest
one — the longer phrase wins at that position. -/
theorem C6_longest_first :
    (∀ de : DataEngine, (build_book_pattern de).Pairwise lenGe) ∧
    (∀ (de : DataEngine) (cs : List Char) (b c v b' : String),
      tryBooks (build_book_pattern de) cs = some (b, c, v) →
      b' ∈ build_book_pattern de →
      b'.data.isPrefixOf cs = true →
      (matchTail (cs.drop b'.data.length)).isSome = true →
      b'.length ≤ b.length) := by
  have hsorted : ∀ de : DataEngine, (build_book_pattern de).Pairwise lenGe :=
    fun de => List.sorted_insertionSort lenGe _
  refine ⟨hsorted, ?_⟩
  intro de cs b c v b' h hb' hpre hmt
  exact tryBooks_longest (hsorted de) h b' hb' hpre hmt

/-- C6 (witness): on "first john 1 2" the alternation at position 0 matches
the phrase "first john" (canonical 1 John) — and it has maximal length among
the phrases completing there. -/
theorem C6_longest_first_witness :
    tryBooks (build_book_pattern emptyDataEngine) ("first john 1 2").data =
      some ("first john", "1", "2") ∧
    ("first john" : String).length ≤ ("first john" : String).length :=
  ⟨by decide,
   C6_longest_first.2 emptyDataEngine ("first john 1 2").data
     "first john" "1" "2" "first john" (by decide) (by decide) (by decide)
     (by decide)⟩

/-! ## Claim C7 -/

/-- C7 (confirmed): `parse_and_find_verse` is pure. In the state-passing
embedding of the method (whose Python body performs only reads — of
`self.book_pattern`, `self.data_engine.spoken_word_map` and the row store —
and no attribute assignment or I/O write), a call leaves the `CoreLogic`
object unchanged, a second call on the resulting state returns the same
result as the first, and the spoken-word/book-name table it reads is
unmodified. -/
theorem C7_parse_pure (cl : CoreLogic) (text translation : String) :
    (parse_run cl text translation).2 = cl ∧
    (parse_run ((parse_run cl text translation).2) text translation).1 =
      (parse_run cl text translation).1 ∧
    ((parse_run cl text translation).2).data_engine.spoken_word_map =
      cl.data_engine.spoken_word_map :=
  ⟨rfl, rfl, rfl⟩

/-! ## Claim C8 -/

/-- C8 (confirmed): `list_audio_devices` fails soft — when the platform
query raises, it returns the empty device mapping together with the
no-default sentinel `-1` instead of propagating the exception; and on
success every entry of the returned mapping is an index/name pair of a
device with at least one input channel. -/
theorem C8_fail_soft :
    (∀ msg : String, list_audio_devices (.error msg) = ([], -1)) ∧
    (∀ (env : SdEnv) (i : Nat) (n : String),
      (i, n) ∈ (list_audio_devices (.ok env)).1 →
      ∃ d : SdDevice, env.devices[i]? = some d ∧
        d.max_input_channels > 0 ∧ n = d.name) := by
  constructor
  · intro msg
    rfl
  · intro env i n h
    simp only [list_audio_devices] at h
    rw [List.mem_map] at h
    obtain ⟨p, hp, hpe⟩ := h
    obtain ⟨j, d⟩ := p
    rw [List.mem_filter] at hp
    obtain ⟨hmem, hchan⟩ := hp
    rw [Prod.mk.injEq] at hpe
    obtain ⟨hj, hn⟩ := hpe
    subst hj; subst hn
    refine ⟨d, ?_, by simpa using hchan, rfl⟩
    rw [← List.mk_mem_enum_iff_getElem?]
    exact hmem

/-- C8 (witness): in the demo environment the input device "Microphone"
(index 0, two channels) is listed, and it indeed names a device with a
positive input-channel count. -/
theorem C8_fail_soft_witness :
    ∃ d : SdDevice, demoSdEnv.devices[0]? = some d ∧
      d.max_input_channels > 0 ∧ "Microphone" = d.name :=
  C8_fail_soft.2 demoSdEnv 0 "Microphone" (by decide)

/-! ## Claim C9 -/

/-- C9 (confirmed): `parse_and_find_verse` returns a result only when the
verse store yields text for the matched citation under the requested
translation: every returned dictionary carries, as `chapter` and
`verse_num`, exactly the matched (non-empty, all-decimal) digit STRINGS,
with `get_verse` returning its `text`; and whenever the text matches the
citation pattern but the store has no row for the matched triple, the
function returns `None` despite the well-formed citation. -/
theorem C9_store_gate (de : DataEngine) (text translation : String) :
    (∀ r : VerseData,
      parse_and_find_verse (CoreLogic.make de) text translation = some r →
      ∃ b : String,
        searchFrom (build_book_pattern de) (pyLower text).data =
          some (b, r.chapter, r.verse_num) ∧
        de.get_verse translation b r.chapter r.verse_num = some r.text ∧
        r.chapter.data ≠ [] ∧ r.chapter.data.all pyIsDigit = true ∧
        r.verse_num.data ≠ [] ∧ r.verse_num.data.all pyIsDigit = true) ∧
    (∀ b c v : String,
      searchFrom (build_book_pattern de) (pyLower text).data = some (b, c, v) →
      de.get_verse translation b c v = none →
      parse_and_find_verse (CoreLogic.make de) text translation = none) := by
  constructor
  · intro r hr
    simp only [parse_and_find_verse, CoreLogic.make] at hr
    split at hr
    · exact absurd hr (by simp)
    · rename_i b c v hs
      split at hr
      · rename_i vt hv
        have hre : _ = r := Option.some.inj hr
        subst hre
        obtain ⟨t, -, ht⟩ := searchFrom_some hs
        obtain ⟨-, -, hmt⟩ := tryBooks_some ht
        obtain ⟨d1, d2, d3, d4⟩ := matchTail_spec hmt
        exact ⟨b, hs, hv, d1, d2, d3, d4⟩
      · exact absurd hr (by simp)
  · intro b c v hs hv
    simp only [parse_and_find_verse, CoreLogic.make, hs, hv]

/-- C9 (witness): "turn to first corinthians 13 4" contains a well-formed
citation, yet over the empty store the parse returns `None`. -/
theorem C9_store_gate_witness :
    parse_and_find_verse (CoreLogic.make emptyDataEngine)
      "turn to first corinthians 13 4" "KJV" = none :=
  (C9_store_gate emptyDataEngine "turn to first corinthians 13 4" "KJV").2
    "first corinthians" "13" "4" (by decide) (by decide)

/-! ## Claim C10 -/

/-- C10 (confirmed): `get_ui_text` returns the empty string for a
`None`-like (falsy) argument, and for a populated result dictionary returns
exactly the quoted-ellipsis verse text, a blank line, and the
`book chapter:verse (translation)` reference line — illustrated on the
repository's own test fixture. -/
theorem C10_ui_text :
    get_ui_text none = "" ∧
    (∀ v : VerseData, get_ui_text (some v) =
      "\"..." ++ v.text ++ "\"\n\n" ++ v.book ++ " " ++ v.chapter ++ ":" ++
        v.verse_num ++ " (" ++ v.translation ++ ")") ∧
    get_ui_text (some ⟨"KJV", "John", "3", "16", "For God so loved the world..."⟩) =
      "\"...For God so loved the world...\"\n\nJohn 3:16 (KJV)" :=
  ⟨rfl, fun _ => rfl, by decide⟩

end Autoverse
